import Mathlib

/-!
Verification of the padding-plan core of `haiku/_src/pad.py`.

The module has two layers: five pure padding-policy functions mapping an
effective kernel size to a `(before, after)` pair, and a planner `create`
that normalizes its arguments to per-dimension sequences, computes the
effective kernel size `(kernel - 1) * rate + 1` for each dimension, and
applies the per-dimension policy to it.

Python integers are unbounded, so they are embedded as `Int`; Python's
floor division `//` is embedded as `Int.fdiv`.
-/

namespace Pad

/-- `valid` from pad.py: no padding. The body discards its argument. -/
def valid (effective_kernel_size : Int) : Int × Int :=
  (0, 0)

/-- `same` from pad.py: pads such that output size matches input size for
stride 1. Python `//` is floor division, embedded as `Int.fdiv`. -/
def same (effective_kernel_size : Int) : Int × Int :=
  ((effective_kernel_size - 1).fdiv 2, effective_kernel_size.fdiv 2)

/-- `full` from pad.py: maximal padding whilst not convolving over just
padded elements. -/
def full (effective_kernel_size : Int) : Int × Int :=
  (effective_kernel_size - 1, effective_kernel_size - 1)

/-- `causal` from pad.py: pre-padding such that output has no dependence
on the future. -/
def causal (effective_kernel_size : Int) : Int × Int :=
  (effective_kernel_size - 1, 0)

/-- `reverse_causal` from pad.py: post-padding such that output has no
dependence on the past. -/
def reverse_causal (effective_kernel_size : Int) : Int × Int :=
  (0, effective_kernel_size - 1)

/-- An argument that is either a single scalar value or a sequence of
values, mirroring `Union[int, Sequence[int]]` and `PadFnOrFns` in the
source signatures of `create`. -/
inductive Arg (α : Type) where
  | scalar : α → Arg α
  | seq : List α → Arg α

/-- Modelled from the spec: `utils.replicate` (from `haiku._src.utils`) is
not part of the provided source, only its call sites in `pad.create` are.
Per the spec's external-interface contract, a scalar is broadcast to `n`
copies and a sequence must have length exactly `n`; per the spec's error
taxonomy, a sequence of length 1 counts as an implicit scalar-equivalent
and is broadcast too.  Any other length is an arity mismatch, signalled
as a failure naming the offending field. -/
def replicate {α : Type} (v : Arg α) (n : Nat) (name : String) :
    Except String (List α) :=
  match v with
  | .scalar a => .ok (List.replicate n a)
  | .seq [a] => .ok (List.replicate n a)
  | .seq xs => if xs.length = n then .ok xs else .error name

/-- `create` from pad.py.  Normalizes `kernel`, `rate` and `padding` to
length-`n` lists (in that evaluation order, matching the source: the two
arguments of the first `map` are evaluated before the second `map` is
built), computes per-dimension effective kernel sizes
`(kernel - 1) * rate + 1`, and applies each dimension's policy to its
effective kernel size.  Python's lazy `map` objects are forced by the
final `tuple(...)`; since the sequences are finite and fully realized,
they are embedded as eager `List.zipWith`. -/
def create (padding : Arg (Int → Int × Int)) (kernel : Arg Int)
    (rate : Arg Int) (n : Nat) : Except String (List (Int × Int)) := do
  let ks ← replicate kernel n "kernel"
  let rs ← replicate rate n "rate"
  let effective_kernel_size := List.zipWith
    (fun kernel rate => (kernel - 1) * rate + 1) ks rs
  let ps ← replicate padding n "padding"
  return List.zipWith (fun x y => x y) ps effective_kernel_size

/-- Helper: `Int.fdiv` by 2 agrees with euclidean division by 2. -/
lemma fdiv_two_eq_ediv (a : Int) : a.fdiv 2 = a / 2 :=
  Int.fdiv_eq_ediv a (by norm_num)

/-- C2: for every `k ≥ 1`, `same k = ((k-1)//2, k//2)` with floor
division, the two components sum to `k - 1`, and when `k - 1` is odd the
larger component is the second (after) one. -/
theorem same_floor_split (k : Int) (h : 1 ≤ k) :
    same k = ((k - 1).fdiv 2, k.fdiv 2) ∧
    (same k).1 + (same k).2 = k - 1 ∧
    (Odd (k - 1) → (same k).1 < (same k).2) := by
  refine ⟨rfl, ?_, ?_⟩
  · simp only [same, fdiv_two_eq_ediv]
    omega
  · rintro ⟨m, hm⟩
    simp only [same, fdiv_two_eq_ediv]
    omega

/-- Witness for C2 at `k = 4`. -/
theorem same_floor_split_witness :
    same 4 = ((4 - 1 : Int).fdiv 2, (4 : Int).fdiv 2) ∧
    (same 4).1 + (same 4).2 = 4 - 1 ∧
    (Odd ((4 : Int) - 1) → (same 4).1 < (same 4).2) :=
  same_floor_split 4 (by norm_num)

/-- C3: for every `k ≥ 1`, `valid k = (0, 0)` and `full k = (k-1, k-1)`. -/
theorem valid_and_full_spec (k : Int) (h : 1 ≤ k) :
    valid k = (0, 0) ∧ full k = (k - 1, k - 1) :=
  ⟨rfl, rfl⟩

/-- Witness for C3 at `k = 3`. -/
theorem valid_and_full_spec_witness :
    valid 3 = (0, 0) ∧ full 3 = ((3 : Int) - 1, (3 : Int) - 1) :=
  valid_and_full_spec 3 (by norm_num)

/-- C4: for every `k ≥ 1`, `causal k = (k-1, 0)` and
`reverse_causal k = (0, k-1)`, and the two are mirror images of one
another component-wise. -/
theorem causal_mirror_spec (k : Int) (h : 1 ≤ k) :
    causal k = (k - 1, 0) ∧ reverse_causal k = (0, k - 1) ∧
    (causal k).1 = (reverse_causal k).2 ∧
    (causal k).2 = (reverse_causal k).1 :=
  ⟨rfl, rfl, rfl, rfl⟩

/-- Witness for C4 at `k = 5`. -/
theorem causal_mirror_spec_witness :
    causal 5 = ((5 : Int) - 1, 0) ∧ reverse_causal 5 = (0, (5 : Int) - 1) ∧
    (causal 5).1 = (reverse_causal 5).2 ∧
    (causal 5).2 = (reverse_causal 5).1 :=
  causal_mirror_spec 5 (by norm_num)

/-- C8: each of the five policy functions, applied to any `k ≥ 1`,
returns a pair of non-negative integers.  Totality (no exception, no
failure path) holds by construction: each is a total Lean function whose
body is pure arithmetic, faithfully mirroring the straight-line Python
bodies. -/
theorem policies_nonneg (k : Int) (h : 1 ≤ k) :
    (0 ≤ (valid k).1 ∧ 0 ≤ (valid k).2) ∧
    (0 ≤ (same k).1 ∧ 0 ≤ (same k).2) ∧
    (0 ≤ (full k).1 ∧ 0 ≤ (full k).2) ∧
    (0 ≤ (causal k).1 ∧ 0 ≤ (causal k).2) ∧
    (0 ≤ (reverse_causal k).1 ∧ 0 ≤ (reverse_causal k).2) := by
  refine ⟨⟨le_refl 0, le_refl 0⟩, ⟨?_, ?_⟩, ⟨?_, ?_⟩, ⟨?_, ?_⟩, ⟨?_, ?_⟩⟩
  · show 0 ≤ (k - 1).fdiv 2
    rw [fdiv_two_eq_ediv]; omega
  · show 0 ≤ k.fdiv 2
    rw [fdiv_two_eq_ediv]; omega
  · show 0 ≤ k - 1
    omega
  · show 0 ≤ k - 1
    omega
  · show 0 ≤ k - 1
    omega
  · show (0 : Int) ≤ 0
    omega
  · show (0 : Int) ≤ 0
    omega
  · show 0 ≤ k - 1
    omega

/-- Witness for C8 at `k = 2`. -/
theorem policies_nonneg_witness :
    (0 ≤ (valid 2).1 ∧ 0 ≤ (valid 2).2) ∧
    (0 ≤ (same 2).1 ∧ 0 ≤ (same 2).2) ∧
    (0 ≤ (full 2).1 ∧ 0 ≤ (full 2).2) ∧
    (0 ≤ (causal 2).1 ∧ 0 ≤ (causal 2).2) ∧
    (0 ≤ (reverse_causal 2).1 ∧ 0 ≤ (reverse_causal 2).2) :=
  policies_nonneg 2 (by norm_num)

/-- C10: `valid` ignores its argument entirely and returns `(0, 0)` for
every integer `k`, including `k < 1`. -/
theorem valid_ignores_argument :
    (∀ k : Int, valid k = (0, 0)) ∧
    (∀ k₁ k₂ : Int, valid k₁ = valid k₂) :=
  ⟨fun _ => rfl, fun _ _ => rfl⟩

/-- Helper: a sequence whose length is already `n` normalizes to itself. -/
lemma replicate_seq_self {α : Type} (xs : List α) (n : Nat) (name : String)
    (h : xs.length = n) : replicate (.seq xs) n name = .ok xs := by
  match xs with
  | [] => subst h; rfl
  | [a] => subst h; rfl
  | a :: b :: t =>
    simp only [replicate]
    rw [if_pos h]

/-- Helper: a sequence whose length is neither 1 nor `n` fails,
naming the field. -/
lemma replicate_seq_error {α : Type} (xs : List α) (n : Nat) (name : String)
    (h1 : xs.length ≠ 1) (hn : xs.length ≠ n) :
    replicate (.seq xs) n name = .error name := by
  match xs with
  | [] =>
    simp only [replicate]
    rw [if_neg hn]
  | [a] => exact absurd rfl h1
  | a :: b :: t =>
    simp only [replicate]
    rw [if_neg hn]

/-- C1: for inputs already normalized to length-`n` sequences, `create`
returns exactly `n` pairs, and the entry at each dimension index `i` is
`padding[i]` applied to the effective kernel size
`(kernel[i] - 1) * rate[i] + 1`, preserving the input dimension order. -/
theorem create_plan_indexed (n : Nat) (ps : List (Int → Int × Int))
    (ks rs : List Int) (hp : ps.length = n) (hk : ks.length = n)
    (hr : rs.length = n) :
    ∃ out, create (.seq ps) (.seq ks) (.seq rs) n = .ok out ∧
      ∃ hlen : out.length = n, ∀ i : Fin n,
        out.get (Fin.cast hlen.symm i) =
          (ps.get (Fin.cast hp.symm i))
            ((ks.get (Fin.cast hk.symm i) - 1) *
              rs.get (Fin.cast hr.symm i) + 1) := by
  have hcreate : create (.seq ps) (.seq ks) (.seq rs) n =
      .ok (List.zipWith (fun x y => x y) ps
        (List.zipWith (fun kernel rate => (kernel - 1) * rate + 1) ks rs)) := by
    simp only [create, replicate_seq_self _ _ _ hp, replicate_seq_self _ _ _ hk,
      replicate_seq_self _ _ _ hr]
    rfl
  have hlen : (List.zipWith (fun x y => x y) ps
      (List.zipWith (fun kernel rate => (kernel - 1) * rate + 1) ks rs)).length
        = n := by
    simp [hp, hk, hr]
  refine ⟨_, hcreate, hlen, ?_⟩
  intro i
  simp only [List.get_eq_getElem, List.getElem_zipWith, Fin.coe_cast]

/-- Witness for C1: `n = 2`, per-dimension policies `[valid, causal]`,
kernels `[3, 4]`, rates `[1, 1]`; the plan is `[(0, 0), (3, 0)]` with the
entries in dimension order. -/
theorem create_plan_indexed_witness :
    ∃ out, create (.seq [valid, causal]) (.seq [(3 : Int), 4])
        (.seq [(1 : Int), 1]) 2 = .ok out ∧
      ∃ hlen : out.length = 2, ∀ i : Fin 2,
        out.get (Fin.cast hlen.symm i) =
          ([valid, causal].get (Fin.cast rfl i))
            (([(3 : Int), 4].get (Fin.cast rfl i) - 1) *
              [(1 : Int), 1].get (Fin.cast rfl i) + 1) :=
  create_plan_indexed 2 [valid, causal] [3, 4] [1, 1] rfl rfl rfl

/-- C7: `create` with `n = 0` and scalar arguments returns the empty
plan, with no error. -/
theorem create_empty_plan (p : Int → Int × Int) (k r : Int) :
    create (.scalar p) (.scalar k) (.scalar r) 0 = .ok [] :=
  rfl

/-- C9: `create` is deterministic: two calls with equal `padding`,
`kernel`, `rate` and `n` arguments return equal sequences.  The embedding
is a pure function of its arguments, exactly like the source, which reads
no state besides its parameters. -/
theorem create_deterministic (p₁ p₂ : Arg (Int → Int × Int))
    (k₁ k₂ r₁ r₂ : Arg Int) (n₁ n₂ : Nat)
    (hp : p₁ = p₂) (hk : k₁ = k₂) (hr : r₁ = r₂) (hn : n₁ = n₂) :
    create p₁ k₁ r₁ n₁ = create p₂ k₂ r₂ n₂ := by
  subst hp
  subst hk
  subst hr
  subst hn
  rfl

/-- Witness for C9 at concrete arguments. -/
theorem create_deterministic_witness :
    create (.scalar same) (.scalar 3) (.scalar 1) 2 =
      create (.scalar same) (.scalar 3) (.scalar 1) 2 :=
  create_deterministic (.scalar same) (.scalar same) (.scalar 3) (.scalar 3)
    (.scalar 1) (.scalar 1) 2 2 rfl rfl rfl rfl

/-- C5 counterexample: a kernel sequence of length 1 with `n = 3` has
length different from `n`, yet `create` succeeds (the length-1 sequence
is treated as a scalar and broadcast), so "length different from n
fails" is false as stated. -/
theorem create_length_one_kernel_accepted :
    create (.scalar same) (.seq [(2 : Int)]) (.scalar 1) 3 =
      .ok [(0, 1), (0, 1), (0, 1)] := by
  rfl

/-- C5 (amended): a sequence argument whose length differs from both `n`
and 1 makes `create` fail with an arity error naming the offending field
(`"kernel"`, `"rate"` or `"padding"`); the failure arises during
normalization and no partial plan is returned (the result is `error`,
never `ok`). -/
theorem create_arity_error (n : Nat) (xs : List Int)
    (fs : List (Int → Int × Int)) (p : Int → Int × Int) (k r : Int)
    (h1 : xs.length ≠ 1) (hn : xs.length ≠ n)
    (g1 : fs.length ≠ 1) (gn : fs.length ≠ n) :
    create (.scalar p) (.seq xs) (.scalar r) n = .error "kernel" ∧
    create (.scalar p) (.scalar k) (.seq xs) n = .error "rate" ∧
    create (.seq fs) (.scalar k) (.scalar r) n = .error "padding" := by
  refine ⟨?_, ?_, ?_⟩
  · simp only [create, replicate_seq_error _ _ _ h1 hn]
    rfl
  · simp only [create, replicate_seq_error _ _ _ h1 hn]
    rfl
  · simp only [create, replicate_seq_error _ _ _ g1 gn]
    rfl

/-- Witness for the amended C5: `n = 3` with `kernel = [1, 2]` (length 2)
fails naming `kernel`; symmetrically for `rate` and `padding`. -/
theorem create_arity_error_witness :
    create (.scalar same) (.seq [(1 : Int), 2]) (.scalar 1) 3 =
      .error "kernel" ∧
    create (.scalar same) (.scalar 1) (.seq [(1 : Int), 2]) 3 =
      .error "rate" ∧
    create (.seq [valid, causal]) (.scalar 1) (.scalar 1) 3 =
      .error "padding" :=
  create_arity_error 3 [1, 2] [valid, causal] same 1 1
    (by decide) (by decide) (by decide) (by decide)

/-- C6 counterexample: with `kernel = 0` (a domain violation), `create`
does not fail fast; it silently returns a plan containing the negative
padding `(-1, 0)` computed from effective kernel size 0. -/
theorem create_nonpositive_kernel_no_error :
    create (.scalar same) (.scalar 0) (.scalar 1) 1 = .ok [(-1, 0)] := by
  rfl

/-- C6 (amended): `create` performs no domain validation: for every
scalar `kernel` and `rate` — including values `≤ 0` — and every `n`, it
returns an `ok` plan rather than failing, silently producing whatever
(possibly negative) padding the arithmetic yields. -/
theorem create_no_domain_validation (p : Int → Int × Int) (k r : Int)
    (n : Nat) :
    ∃ out, create (.scalar p) (.scalar k) (.scalar r) n = .ok out :=
  ⟨_, rfl⟩

end Pad
